import Mathlib

/-!
Shallow embedding of the arena-malloc accounting core of the `platform`
repository.

Embedded source files:
* `src/src/je_arena_malloc.cc` — the `JEArenaMalloc` facade: client registry
  (`registerClient` / `unregisterClient`), per-thread switching
  (`switchToClient` / `switchFromClient`) and the allocation entry points
  (`malloc` / `calloc` / `realloc` / `free` / `sized_free`).
* `src/src/je_arena_corelocal_tracker.cc` — the core-sharded accounting
  backend (`JEArenaCoreLocalTracker`): per-client aggregate
  `clientEstimatedMemory`, per-(client, core) shards `coreAllocated`,
  `memAllocated` / `memDeallocated` / `maybeUpdateEstimatedTotalMemUsed` /
  `getPreciseAllocated` / `getEstimatedAllocated` / `clientRegistered`.
* `src/include/platform/cb_arena_malloc_client.h` — `ArenaMallocClient` and
  `ArenaMallocMaxClients`.

The underlying allocator (jemalloc) is an external collaborator.  It is
modelled as: a size-class function `nallocxFn` (the behaviour of
`je_nallocx(sz, 0)`), and a heap mapping live pointers to their effective
allocation size, so that `je_sallocx(p, 0)` is the heap lookup.  `je_mallocx`
returns a fresh pointer whose effective size is `nallocxFn size` (jemalloc's
documented relation `sallocx(mallocx(n, f), f) = nallocx(n, f)`).  jemalloc
flag words only route the arena / thread cache; they do not influence size
classes (the trackers call `je_nallocx(size, 0)` with the comment "flags
aren't read in this call"), so flag computation is not modelled.

The model is single-threaded: one operation completes before the next
starts.  The core a thread maps to is passed explicitly to each accounting
operation (the `CoreStore` thread-to-shard mapping is unspecified in the
source).
-/

/-- `ArenaMallocMaxClients` from `cb_arena_malloc_client.h`: the maximum
number of concurrently registered clients. -/
def ArenaMallocMaxClients : Nat := 100

/-- Modelled from the spec: `NO_CLIENT = MAX_CLIENTS + 1`.  The constant
`NoClientIndex` is used throughout the sources but its defining header
revision is not under `src/`; the spec (§6 Constants) fixes its value. -/
def NoClientIndex : Nat := ArenaMallocMaxClients + 1

/-- `ArenaMallocClient` from `cb_arena_malloc_client.h`: the handle a client
receives from `registerClient`.  The `estimateUpdateThreshold` field (the
per-shard drift threshold read by `maybeUpdateEstimatedTotalMemUsed`) is
from the header revision used by `je_arena_corelocal_tracker.cc`; the spec
gives its default as 100 KiB. -/
structure ArenaMallocClient where
  index : Nat
  threadCache : Bool
  arena : Nat
  estimateUpdateThreshold : Int
  deriving Repr, DecidableEq

/-- Modelled from the spec: default per-shard drift threshold (≈100 KiB). -/
def defaultEstimateUpdateThreshold : Int := 100 * 1024

/-- Pointwise update of a one-argument map (models a store to an array
element, e.g. `clientEstimatedMemory[index]->store(v)`). -/
def upd1 (f : Nat → α) (i : Nat) (v : α) : Nat → α :=
  fun j => if j = i then v else f j

/-- Pointwise update of a two-argument map (models a store to one core's
counter of one client, e.g. `coreAllocated[index].get()->exchange(0)`). -/
def upd2 (f : Nat → Nat → α) (i c : Nat) (v : α) : Nat → Nat → α :=
  fun j d => if j = i ∧ d = c then v else f j d

/-- State of the core-sharded accounting backend
(`je_arena_corelocal_tracker.cc`):
* `clientEstimatedMemory` — the per-client signed aggregate
  (`static std::array<…RelaxedAtomic<int64_t>…, ArenaMallocMaxClients>
  clientEstimatedMemory`);
* `coreAllocated` — the per-(client, core) shard `memUsed`
  (`static std::array<CoreStore<…>, ArenaMallocMaxClients> coreAllocated`).
-/
structure TrackerState where
  clientEstimatedMemory : Nat → Int
  coreAllocated : Nat → Nat → Int

/-- The all-zero accounting state (static initialisation of the arrays). -/
def TrackerState.zero : TrackerState where
  clientEstimatedMemory := fun _ => 0
  coreAllocated := fun _ _ => 0

/-- `maybeUpdateEstimatedTotalMemUsed` from `je_arena_corelocal_tracker.cc`:
if `std::abs(value) > client.estimateUpdateThreshold`, swap the core's shard
to 0 (`coreMemory.exchange(0)`) and `fetch_add` the removed amount into
`clientEstimatedMemory[client.index]`. -/
def maybeUpdateEstimatedTotalMemUsed (client : ArenaMallocClient) (core : Nat)
    (value : Int) (st : TrackerState) : TrackerState :=
  if client.estimateUpdateThreshold < |value| then
    { st with
      clientEstimatedMemory := upd1 st.clientEstimatedMemory client.index
        (st.clientEstimatedMemory client.index +
          st.coreAllocated client.index core)
      coreAllocated := upd2 st.coreAllocated client.index core 0 }
  else st

/-- `JEArenaCoreLocalTracker::memAllocated`: when a client is switched in,
charge `je_nallocx(size, 0)` to the calling core's shard
(`memUsed.fetch_add(size) + size`) and run the drift check on the new shard
value. -/
def JEArenaCoreLocalTracker.memAllocated (nallocxFn : Nat → Nat)
    (client : ArenaMallocClient) (core : Nat) (size : Nat)
    (st : TrackerState) : TrackerState :=
  if client.index ≠ NoClientIndex then
    let size := nallocxFn size
    let newSize := st.coreAllocated client.index core + size
    let st' := { st with
      coreAllocated := upd2 st.coreAllocated client.index core newSize }
    maybeUpdateEstimatedTotalMemUsed client core newSize st'
  else st

/-- `JEArenaCoreLocalTracker::memDeallocated`: when a client is switched in,
credit `je_sallocx(ptr, 0)` — passed here as `sallocSize`, the effective
size the allocator reports for the freed pointer — to the calling core's
shard (`memUsed.fetch_sub(size) - size`) and run the drift check. -/
def JEArenaCoreLocalTracker.memDeallocated (client : ArenaMallocClient)
    (core : Nat) (sallocSize : Nat) (st : TrackerState) : TrackerState :=
  if client.index ≠ NoClientIndex then
    let newSize := st.coreAllocated client.index core - sallocSize
    let st' := { st with
      coreAllocated := upd2 st.coreAllocated client.index core newSize }
    maybeUpdateEstimatedTotalMemUsed client core newSize st'
  else st

/-- The per-core drain loop shared by `getPreciseAllocated` (each iteration:
`clientEstimate.get()->fetch_add(core.get()->memUsed.exchange(0))`). -/
def drainCores (i : Nat) (cores : List Nat) (st : TrackerState) :
    TrackerState :=
  match cores with
  | [] => st
  | c :: rest =>
    drainCores i rest
      { st with
        clientEstimatedMemory := upd1 st.clientEstimatedMemory i
          (st.clientEstimatedMemory i + st.coreAllocated i c)
        coreAllocated := upd2 st.coreAllocated i c 0 }

/-- `JEArenaCoreLocalTracker::getPreciseAllocated`: drain every core's shard
for the client into `clientEstimatedMemory[client.index]`, then return
`size_t(std::max(int64_t(0), clientEstimate.get()->load()))`.  `numCores` is
the number of shards of the `CoreStore`. -/
def JEArenaCoreLocalTracker.getPreciseAllocated (numCores : Nat)
    (client : ArenaMallocClient) (st : TrackerState) : Nat × TrackerState :=
  let st' := drainCores client.index (List.range numCores) st
  ((max 0 (st'.clientEstimatedMemory client.index)).toNat, st')

/-- `JEArenaCoreLocalTracker::getEstimatedAllocated`: return
`size_t(std::max(int64_t(0), clientEstimatedMemory[client.index]…->load()))`
without draining. -/
def JEArenaCoreLocalTracker.getEstimatedAllocated
    (client : ArenaMallocClient) (st : TrackerState) : Nat :=
  (max 0 (st.clientEstimatedMemory client.index)).toNat

/-- The per-core zeroing loop of `clientRegistered`
(`core.get()->memUsed.exchange(0)` for each core). -/
def zeroCores (i : Nat) (cores : List Nat) (st : TrackerState) :
    TrackerState :=
  match cores with
  | [] => st
  | c :: rest =>
    zeroCores i rest { st with coreAllocated := upd2 st.coreAllocated i c 0 }

/-- `JEArenaCoreLocalTracker::clientRegistered`: store 0 to
`clientEstimatedMemory[client.index]` and exchange every core's shard for
that index to 0. -/
def JEArenaCoreLocalTracker.clientRegistered (numCores : Nat)
    (client : ArenaMallocClient) (st : TrackerState) : TrackerState :=
  zeroCores client.index (List.range numCores)
    { st with
      clientEstimatedMemory := upd1 st.clientEstimatedMemory client.index 0 }

/-- The signed total recorded for client `i`: aggregate plus the sum of all
of the client's shards.  This is the quantity `getPreciseAllocated` clamps
and reports. -/
def clientTotal (numCores i : Nat) (st : TrackerState) : Int :=
  st.clientEstimatedMemory i +
    ((List.range numCores).map (fun c => st.coreAllocated i c)).sum

/-- One accounting event of a single-threaded execution against the tracker:
a charge (`memAllocated` with the requested size, issued from some core) or
a credit (`memDeallocated`; `sallocSize` is the effective size
`je_sallocx` reports for the freed pointer). -/
inductive TrackOp where
  | alloc (core size : Nat)
  | dealloc (core sallocSize : Nat)
  deriving Repr, DecidableEq

/-- The core a `TrackOp` is issued from. -/
def TrackOp.core : TrackOp → Nat
  | .alloc c _ => c
  | .dealloc c _ => c

/-- Run a list of accounting events for one client against the tracker. -/
def runTrackOps (nallocxFn : Nat → Nat) (client : ArenaMallocClient)
    (ops : List TrackOp) (st : TrackerState) : TrackerState :=
  match ops with
  | [] => st
  | .alloc core size :: rest =>
    runTrackOps nallocxFn client rest
      (JEArenaCoreLocalTracker.memAllocated nallocxFn client core size st)
  | .dealloc core sallocSize :: rest =>
    runTrackOps nallocxFn client rest
      (JEArenaCoreLocalTracker.memDeallocated client core sallocSize st)

/-- Total bytes charged by a list of accounting events: the sum of the
effective sizes `je_nallocx(size, 0)` recorded by its `memAllocated`
calls. -/
def opsCharges (nallocxFn : Nat → Nat) : List TrackOp → Int
  | [] => 0
  | .alloc _ size :: rest => (nallocxFn size : Int) + opsCharges nallocxFn rest
  | .dealloc _ _ :: rest => opsCharges nallocxFn rest

/-- Total bytes credited by a list of accounting events: the sum of the
effective sizes recorded by its `memDeallocated` calls. -/
def opsCredits : List TrackOp → Int
  | [] => 0
  | .alloc _ _ :: rest => opsCredits rest
  | .dealloc _ size :: rest => (size : Int) + opsCredits rest

/-- Registry slot `struct Client` from `je_arena_malloc.cc` (`int arena = 0;
bool used = false;` with `reset(arena)` clearing `used` and keeping the
arena). -/
structure Client where
  arena : Nat
  used : Bool
  deriving Repr, DecidableEq

/-- Errors surfaced by the registry (`throw` sites in `je_arena_malloc.cc`):
* `exhaustedClients` — `registerClient`'s "no available indices";
* `arenaZero` — `registerClient`'s "did not expect to have arena 0";
* `invalidHandle` — `unregisterClient`'s "client is not in-use". -/
inductive ArenaError where
  | exhaustedClients
  | arenaZero
  | invalidHandle
  deriving Repr, DecidableEq

/-- Combined state of the facade and its collaborators:
* `clients` / `nextArena` — the registry
  (`folly::Synchronized<std::array<Client, ArenaMallocMaxClients>> clients`)
  together with the supply of fresh jemalloc arena ids (`arenas.create`
  hands out successive nonzero ids, modelled by the counter);
* `currentClient` — the thread-local record of the switched-in client
  (`currentClient` index / flags in `je_arena_malloc.cc`; the full handle is
  kept, as in the `tld.client` revision, because the core-local tracker
  reads the handle's drift threshold);
* `tracker` — the accounting backend state;
* `heap` / `nextPtr` — the external allocator: live pointers mapped to the
  effective size `je_sallocx(p, 0)` reports, and the fresh-pointer supply
  (pointer 0 is `nullptr`). -/
structure JEState where
  clients : Nat → Client
  nextArena : Nat
  currentClient : ArenaMallocClient
  tracker : TrackerState
  heap : Nat → Option Nat
  nextPtr : Nat

/-- The scan loop of `registerClient`: walk the slot indices in order and
return the first whose `used` flag is clear. -/
def scanFree (clients : Nat → Client) : List Nat → Option Nat
  | [] => none
  | i :: rest => if (clients i).used then scanFree clients rest else some i

/-- `JEArenaMalloc::makeArena`, modelling jemalloc `arenas.create`: hand out
the next unused (nonzero) arena id. -/
def makeArena (st : JEState) : Nat × JEState :=
  (st.nextArena, { st with nextArena := st.nextArena + 1 })

/-- `JEArenaMalloc::registerClient`: under the writer lock, find the first
slot with `!client.used`; create an arena only if the slot's `arena == 0`;
reject arena id 0; mark the slot used; build the handle
`{client.arena, index, threadCache && tcacheEnabled}` and call the
tracker's `clientRegistered` on it.  Throws (error results here) when every
slot is used or when the created arena id is 0. -/
def JEArenaMalloc.registerClient (nCores : Nat) (threadCache tcacheEnabled : Bool)
    (st : JEState) : Except ArenaError ArenaMallocClient × JEState :=
  match scanFree st.clients (List.range ArenaMallocMaxClients) with
  | none => (.error .exhaustedClients, st)
  | some index =>
    let (arena, st1) :=
      if (st.clients index).arena = 0 then makeArena st
      else ((st.clients index).arena, st)
    if arena = 0 then (.error .arenaZero, st1)
    else
      let newClient : ArenaMallocClient :=
        { index := index, threadCache := threadCache && tcacheEnabled,
          arena := arena,
          estimateUpdateThreshold := defaultEstimateUpdateThreshold }
      (.ok newClient,
        { st1 with
          clients := upd1 st1.clients index { arena := arena, used := true }
          tracker :=
            JEArenaCoreLocalTracker.clientRegistered nCores newClient
              st1.tracker })

/-- `JEArenaMalloc::unregisterClient`: under the writer lock, if the handle's
slot is not in use throw `invalid_argument`; otherwise `c.reset(c.arena)` —
clear `used`, retain the arena. -/
def JEArenaMalloc.unregisterClient (client : ArenaMallocClient)
    (st : JEState) : Except ArenaError Unit × JEState :=
  let c := st.clients client.index
  if !c.used then (.error .invalidHandle, st)
  else
    (.ok (),
      { st with
        clients := upd1 st.clients client.index
          { arena := c.arena, used := false } })

/-- `JEArenaMalloc::switchToClient`: record the handle in thread-local
state.  (The jemalloc flag word computed alongside — arena and thread-cache
bits — routes allocations but never reaches the accounting backend, whose
size queries pass flags 0; `threadUp` is a no-op for the core-local
tracker.) -/
def JEArenaMalloc.switchToClient (client : ArenaMallocClient)
    (st : JEState) : JEState :=
  { st with currentClient := client }

/-- `JEArenaMalloc::switchFromClient`: switch to
`{0, NoClientIndex, tcacheEnabled}`. -/
def JEArenaMalloc.switchFromClient (tcacheEnabled : Bool) (st : JEState) :
    JEState :=
  JEArenaMalloc.switchToClient
    { index := NoClientIndex, threadCache := tcacheEnabled, arena := 0,
      estimateUpdateThreshold := defaultEstimateUpdateThreshold } st

/-- `je_mallocx(size, flags)`: return a fresh non-null pointer whose
effective size — what `je_sallocx` will later report — is
`nallocxFn size`. -/
def mallocx (nallocxFn : Nat → Nat) (size : Nat) (st : JEState) :
    Nat × JEState :=
  let p := st.nextPtr + 1
  (p,
    { st with
      heap := upd1 st.heap p (some (nallocxFn size))
      nextPtr := st.nextPtr + 1 })

/-- `je_sallocx(ptr, flags)`: the effective size of a live allocation. -/
def sallocx (st : JEState) (ptr : Nat) : Nat :=
  (st.heap ptr).getD 0

/-- `je_dallocx(ptr, flags)`: remove the allocation. -/
def dallocx (ptr : Nat) (st : JEState) : JEState :=
  { st with heap := upd1 st.heap ptr none }

/-- `je_rallocx(ptr, size, flags)`: resize the allocation to effective size
`nallocxFn size` (modelled in place; the result is still a live allocation,
never a free). -/
def rallocx (nallocxFn : Nat → Nat) (ptr size : Nat) (st : JEState) :
    Nat × JEState :=
  (ptr, { st with heap := upd1 st.heap ptr (some (nallocxFn size)) })

/-- `JEArenaMalloc::malloc`: `if (size == 0) size = 8;` then charge the
current client via `memAllocated` and return `je_mallocx(size, flags)`. -/
def JEArenaMalloc.malloc (nallocxFn : Nat → Nat) (core : Nat) (size : Nat)
    (st : JEState) : Nat × JEState :=
  let size := if size = 0 then 8 else size
  let c := st.currentClient
  let st := { st with
    tracker := JEArenaCoreLocalTracker.memAllocated nallocxFn c core size
      st.tracker }
  mallocx nallocxFn size st

/-- `JEArenaMalloc::calloc`: charge `memAllocated(c.index, size)` — note the
source passes `size`, not `nmemb * size` — and return
`je_mallocx(nmemb * size, flags | MALLOCX_ZERO)`. -/
def JEArenaMalloc.calloc (nallocxFn : Nat → Nat) (core : Nat)
    (nmemb size : Nat) (st : JEState) : Nat × JEState :=
  let c := st.currentClient
  let st := { st with
    tracker := JEArenaCoreLocalTracker.memAllocated nallocxFn c core size
      st.tracker }
  mallocx nallocxFn (nmemb * size) st

/-- `JEArenaMalloc::realloc`: `if (size == 0) size = 8;`; for a null pointer
charge and `je_mallocx`; otherwise credit the old allocation
(`memDeallocated`), charge the new size (`memAllocated`) and
`je_rallocx(ptr, size, flags)`. -/
def JEArenaMalloc.realloc (nallocxFn : Nat → Nat) (core : Nat)
    (ptr size : Nat) (st : JEState) : Nat × JEState :=
  let size := if size = 0 then 8 else size
  let c := st.currentClient
  if ptr = 0 then
    let st := { st with
      tracker := JEArenaCoreLocalTracker.memAllocated nallocxFn c core size
        st.tracker }
    mallocx nallocxFn size st
  else
    let st := { st with
      tracker := JEArenaCoreLocalTracker.memDeallocated c core
        (sallocx st ptr) st.tracker }
    let st := { st with
      tracker := JEArenaCoreLocalTracker.memAllocated nallocxFn c core size
        st.tracker }
    rallocx nallocxFn ptr size st

/-- `JEArenaMalloc::free`: `if (ptr)` credit the current client via
`memDeallocated` then `je_dallocx(ptr, flags)`. -/
def JEArenaMalloc.free (core : Nat) (ptr : Nat) (st : JEState) : JEState :=
  if ptr ≠ 0 then
    let c := st.currentClient
    let st := { st with
      tracker := JEArenaCoreLocalTracker.memDeallocated c core
        (sallocx st ptr) st.tracker }
    dallocx ptr st
  else st

/-- `JEArenaMalloc::sized_free`: `if (ptr)` credit the current client via
`memDeallocated` then `je_sdallocx(ptr, size, flags)` (same deallocation
effect as `dallocx`). -/
def JEArenaMalloc.sized_free (core : Nat) (ptr _size : Nat) (st : JEState) :
    JEState :=
  if ptr ≠ 0 then
    let c := st.currentClient
    let st := { st with
      tracker := JEArenaCoreLocalTracker.memDeallocated c core
        (sallocx st ptr) st.tracker }
    dallocx ptr st
  else st

/-- `JEArenaMalloc::getPreciseAllocated` (via `_JEArenaMalloc`): delegate to
the tracker. -/
def JEArenaMalloc.getPreciseAllocated (nCores : Nat)
    (client : ArenaMallocClient) (st : JEState) : Nat × JEState :=
  let (v, tr) :=
    JEArenaCoreLocalTracker.getPreciseAllocated nCores client st.tracker
  (v, { st with tracker := tr })

/-- `JEArenaMalloc::getEstimatedAllocated` (via `_JEArenaMalloc`): delegate
to the tracker. -/
def JEArenaMalloc.getEstimatedAllocated (client : ArenaMallocClient)
    (st : JEState) : Nat :=
  JEArenaCoreLocalTracker.getEstimatedAllocated client st.tracker

/-- A pristine process state: empty registry, nothing switched in, zeroed
accounting, empty heap. -/
def JEState.initial : JEState where
  clients := fun _ => { arena := 0, used := false }
  nextArena := 1
  currentClient :=
    { index := NoClientIndex, threadCache := true, arena := 0,
      estimateUpdateThreshold := defaultEstimateUpdateThreshold }
  tracker := TrackerState.zero
  heap := fun _ => none
  nextPtr := 0

lemma listRangeSum (f : Nat → Int) (n : Nat) :
    ((List.range n).map f).sum = ∑ c in Finset.range n, f c := rfl

lemma sum_if_eq (f : Nat → Int) (core : Nat) (v : Int) (n : Nat)
    (hc : core < n) :
    (∑ c in Finset.range n, if c = core then v else f c)
      = (∑ c in Finset.range n, f c) - f core + v := by
  have hmem : core ∈ Finset.range n := Finset.mem_range.mpr hc
  have h1 : (∑ c in (Finset.range n).erase core,
        if c = core then v else f c) + (if core = core then v else f core)
      = ∑ c in Finset.range n, if c = core then v else f c :=
    Finset.sum_erase_add _ _ hmem
  have h2 : (∑ c in (Finset.range n).erase core, f c) + f core
      = ∑ c in Finset.range n, f c :=
    Finset.sum_erase_add _ _ hmem
  have h3 : (∑ c in (Finset.range n).erase core,
        if c = core then v else f c)
      = ∑ c in (Finset.range n).erase core, f c := by
    refine Finset.sum_congr rfl fun c hcmem => ?_
    rw [if_neg (Finset.ne_of_mem_erase hcmem)]
  rw [← h1, h3, if_pos rfl]
  omega

lemma clientTotal_def (numCores i : Nat) (st : TrackerState) :
    clientTotal numCores i st
      = st.clientEstimatedMemory i
        + ∑ c in Finset.range numCores, st.coreAllocated i c := by
  unfold clientTotal
  rw [listRangeSum]

lemma maybeUpdate_est_other (client : ArenaMallocClient) (core : Nat)
    (value : Int) (st : TrackerState) (j : Nat) (hj : j ≠ client.index) :
    (maybeUpdateEstimatedTotalMemUsed client core value
        st).clientEstimatedMemory j = st.clientEstimatedMemory j := by
  unfold maybeUpdateEstimatedTotalMemUsed
  split <;> simp [upd1, hj]

lemma maybeUpdate_shard_other (client : ArenaMallocClient) (core : Nat)
    (value : Int) (st : TrackerState) (j d : Nat)
    (h : ¬(j = client.index ∧ d = core)) :
    (maybeUpdateEstimatedTotalMemUsed client core value st).coreAllocated j d
      = st.coreAllocated j d := by
  unfold maybeUpdateEstimatedTotalMemUsed
  split <;> simp [upd2, h]

lemma clientTotal_maybeUpdate (n : Nat) (client : ArenaMallocClient)
    (core : Nat) (value : Int) (st : TrackerState) (hc : core < n) :
    clientTotal n client.index
        (maybeUpdateEstimatedTotalMemUsed client core value st)
      = clientTotal n client.index st := by
  unfold maybeUpdateEstimatedTotalMemUsed
  split
  · rw [clientTotal_def, clientTotal_def]
    simp only [upd1, upd2, eq_self_iff_true, true_and, if_true]
    rw [sum_if_eq (fun c => st.coreAllocated client.index c) core 0 n hc]
    ring
  · rfl

lemma memAllocated_noclient (nallocxFn : Nat → Nat)
    (client : ArenaMallocClient) (core size : Nat) (st : TrackerState)
    (h : client.index = NoClientIndex) :
    JEArenaCoreLocalTracker.memAllocated nallocxFn client core size st
      = st := by
  unfold JEArenaCoreLocalTracker.memAllocated
  simp [h]

lemma memDeallocated_noclient (client : ArenaMallocClient)
    (core sallocSize : Nat) (st : TrackerState)
    (h : client.index = NoClientIndex) :
    JEArenaCoreLocalTracker.memDeallocated client core sallocSize st
      = st := by
  unfold JEArenaCoreLocalTracker.memDeallocated
  simp [h]

lemma clientTotal_upd2_add (n i core : Nat) (delta : Int)
    (st : TrackerState) (hc : core < n) :
    clientTotal n i
        { st with
          coreAllocated :=
            upd2 st.coreAllocated i core (st.coreAllocated i core + delta) }
      = clientTotal n i st + delta := by
  rw [clientTotal_def, clientTotal_def]
  simp only [upd2, eq_self_iff_true, true_and]
  rw [sum_if_eq (fun c => st.coreAllocated i c) core
    (st.coreAllocated i core + delta) n hc]
  ring

lemma clientTotal_memAllocated (n : Nat) (nallocxFn : Nat → Nat)
    (client : ArenaMallocClient) (core size : Nat) (st : TrackerState)
    (hidx : client.index ≠ NoClientIndex) (hc : core < n) :
    clientTotal n client.index
        (JEArenaCoreLocalTracker.memAllocated nallocxFn client core size st)
      = clientTotal n client.index st + nallocxFn size := by
  unfold JEArenaCoreLocalTracker.memAllocated
  rw [if_pos hidx]
  rw [clientTotal_maybeUpdate n client core _ _ hc]
  exact clientTotal_upd2_add n client.index core (nallocxFn size) st hc

lemma clientTotal_memDeallocated (n : Nat) (client : ArenaMallocClient)
    (core sallocSize : Nat) (st : TrackerState)
    (hidx : client.index ≠ NoClientIndex) (hc : core < n) :
    clientTotal n client.index
        (JEArenaCoreLocalTracker.memDeallocated client core sallocSize st)
      = clientTotal n client.index st - sallocSize := by
  unfold JEArenaCoreLocalTracker.memDeallocated
  rw [if_pos hidx]
  rw [clientTotal_maybeUpdate n client core _ _ hc]
  have h := clientTotal_upd2_add n client.index core (-(sallocSize : Int))
    st hc
  have e : st.coreAllocated client.index core + -(sallocSize : Int)
      = st.coreAllocated client.index core - sallocSize := by ring
  rw [e] at h
  rw [h]
  ring


lemma drainCores_est_other (i : Nat) (cores : List Nat) (st : TrackerState)
    (j : Nat) (hj : j ≠ i) :
    (drainCores i cores st).clientEstimatedMemory j
      = st.clientEstimatedMemory j := by
  induction cores generalizing st with
  | nil => rfl
  | cons c rest ih =>
    unfold drainCores
    rw [ih]
    simp [upd1, hj]

lemma drainCores_shard_other (i : Nat) (cores : List Nat) (st : TrackerState)
    (j d : Nat) (hj : j ≠ i) :
    (drainCores i cores st).coreAllocated j d = st.coreAllocated j d := by
  induction cores generalizing st with
  | nil => rfl
  | cons c rest ih =>
    unfold drainCores
    rw [ih]
    simp [upd2, hj]

lemma drainCores_shard (i : Nat) (cores : List Nat) (st : TrackerState)
    (c : Nat) :
    (drainCores i cores st).coreAllocated i c
      = if c ∈ cores then 0 else st.coreAllocated i c := by
  induction cores generalizing st with
  | nil => simp [drainCores]
  | cons c0 rest ih =>
    unfold drainCores
    rw [ih]
    by_cases hc : c ∈ rest
    · simp [hc]
    · by_cases h0 : c = c0
      · simp [hc, h0, upd2]
      · simp [hc, h0, upd2]

lemma drainCores_est (i : Nat) (cores : List Nat) (st : TrackerState)
    (hnd : cores.Nodup) :
    (drainCores i cores st).clientEstimatedMemory i
      = st.clientEstimatedMemory i
        + (cores.map (fun c => st.coreAllocated i c)).sum := by
  induction cores generalizing st with
  | nil => simp [drainCores]
  | cons c rest ih =>
    have hnotmem : c ∉ rest := (List.nodup_cons.mp hnd).1
    have hndrest : rest.Nodup := (List.nodup_cons.mp hnd).2
    unfold drainCores
    rw [ih _ hndrest]
    simp only [upd1, upd2, eq_self_iff_true, true_and, if_true,
      List.map_cons, List.sum_cons]
    have hmap : rest.map (fun c' =>
          if c' = c then (0 : Int) else st.coreAllocated i c')
        = rest.map (fun c' => st.coreAllocated i c') := by
      refine List.map_congr_left fun c' hc' => ?_
      have : c' ≠ c := fun h => hnotmem (h ▸ hc')
      simp [this]
    rw [hmap]
    ring

lemma getPrecise_val (n : Nat) (client : ArenaMallocClient)
    (st : TrackerState) :
    (JEArenaCoreLocalTracker.getPreciseAllocated n client st).1
      = (max 0 (clientTotal n client.index st)).toNat := by
  show (max 0 ((drainCores client.index (List.range n)
    st).clientEstimatedMemory client.index)).toNat = _
  rw [drainCores_est _ _ _ (List.nodup_range n), listRangeSum,
    ← clientTotal_def]

lemma getPrecise_est (n : Nat) (client : ArenaMallocClient)
    (st : TrackerState) :
    (JEArenaCoreLocalTracker.getPreciseAllocated n client
        st).2.clientEstimatedMemory client.index
      = clientTotal n client.index st := by
  show (drainCores client.index (List.range n)
    st).clientEstimatedMemory client.index = _
  rw [drainCores_est _ _ _ (List.nodup_range n), listRangeSum,
    ← clientTotal_def]

lemma getPrecise_shard (n : Nat) (client : ArenaMallocClient)
    (st : TrackerState) (c : Nat) (hc : c < n) :
    (JEArenaCoreLocalTracker.getPreciseAllocated n client
        st).2.coreAllocated client.index c = 0 := by
  show (drainCores client.index (List.range n)
    st).coreAllocated client.index c = 0
  rw [drainCores_shard]
  simp [List.mem_range.mpr hc]

lemma clientTotal_getPrecise (n : Nat) (client : ArenaMallocClient)
    (st : TrackerState) :
    clientTotal n client.index
        (JEArenaCoreLocalTracker.getPreciseAllocated n client st).2
      = clientTotal n client.index st := by
  rw [clientTotal_def]
  rw [getPrecise_est]
  have hz : (∑ c in Finset.range n,
        (JEArenaCoreLocalTracker.getPreciseAllocated n client
          st).2.coreAllocated client.index c) = 0 := by
    refine Finset.sum_eq_zero fun c hc => ?_
    exact getPrecise_shard n client st c (Finset.mem_range.mp hc)
  rw [hz]
  ring

lemma zeroCores_est (i : Nat) (cores : List Nat) (st : TrackerState)
    (j : Nat) :
    (zeroCores i cores st).clientEstimatedMemory j
      = st.clientEstimatedMemory j := by
  induction cores generalizing st with
  | nil => rfl
  | cons c rest ih =>
    unfold zeroCores
    rw [ih]

lemma zeroCores_shard_other (i : Nat) (cores : List Nat) (st : TrackerState)
    (j d : Nat) (hj : j ≠ i) :
    (zeroCores i cores st).coreAllocated j d = st.coreAllocated j d := by
  induction cores generalizing st with
  | nil => rfl
  | cons c rest ih =>
    unfold zeroCores
    rw [ih]
    simp [upd2, hj]

lemma zeroCores_shard (i : Nat) (cores : List Nat) (st : TrackerState)
    (c : Nat) :
    (zeroCores i cores st).coreAllocated i c
      = if c ∈ cores then 0 else st.coreAllocated i c := by
  induction cores generalizing st with
  | nil => simp [zeroCores]
  | cons c0 rest ih =>
    unfold zeroCores
    rw [ih]
    by_cases hc : c ∈ rest
    · simp [hc]
    · by_cases h0 : c = c0
      · simp [hc, h0, upd2]
      · simp [hc, h0, upd2]

lemma clientRegistered_est (n : Nat) (client : ArenaMallocClient)
    (st : TrackerState) :
    (JEArenaCoreLocalTracker.clientRegistered n client
        st).clientEstimatedMemory client.index = 0 := by
  unfold JEArenaCoreLocalTracker.clientRegistered
  rw [zeroCores_est]
  simp [upd1]

lemma clientRegistered_shard (n : Nat) (client : ArenaMallocClient)
    (st : TrackerState) (c : Nat) (hc : c < n) :
    (JEArenaCoreLocalTracker.clientRegistered n client
        st).coreAllocated client.index c = 0 := by
  unfold JEArenaCoreLocalTracker.clientRegistered
  rw [zeroCores_shard]
  simp [List.mem_range.mpr hc]

lemma clientTotal_clientRegistered (n : Nat) (client : ArenaMallocClient)
    (st : TrackerState) :
    clientTotal n client.index
        (JEArenaCoreLocalTracker.clientRegistered n client st) = 0 := by
  rw [clientTotal_def]
  rw [clientRegistered_est]
  have hz : (∑ c in Finset.range n,
        (JEArenaCoreLocalTracker.clientRegistered n client
          st).coreAllocated client.index c) = 0 := by
    refine Finset.sum_eq_zero fun c hc => ?_
    exact clientRegistered_shard n client st c (Finset.mem_range.mp hc)
  rw [hz]
  ring

lemma opsCharges_cons_alloc (nallocxFn : Nat → Nat) (core size : Nat)
    (rest : List TrackOp) :
    opsCharges nallocxFn (.alloc core size :: rest)
      = (nallocxFn size : Int) + opsCharges nallocxFn rest := rfl

lemma opsCharges_cons_dealloc (nallocxFn : Nat → Nat) (core size : Nat)
    (rest : List TrackOp) :
    opsCharges nallocxFn (.dealloc core size :: rest)
      = opsCharges nallocxFn rest := rfl

lemma opsCredits_cons_alloc (core size : Nat) (rest : List TrackOp) :
    opsCredits (.alloc core size :: rest) = opsCredits rest := rfl

lemma opsCredits_cons_dealloc (core size : Nat) (rest : List TrackOp) :
    opsCredits (.dealloc core size :: rest)
      = (size : Int) + opsCredits rest := rfl

lemma clientTotal_runTrackOps (n : Nat) (nallocxFn : Nat → Nat)
    (client : ArenaMallocClient) (ops : List TrackOp) (st : TrackerState)
    (hidx : client.index ≠ NoClientIndex)
    (hcores : ∀ op ∈ ops, op.core < n) :
    clientTotal n client.index (runTrackOps nallocxFn client ops st)
      = clientTotal n client.index st
        + opsCharges nallocxFn ops - opsCredits ops := by
  induction ops generalizing st with
  | nil => simp [runTrackOps, opsCharges, opsCredits]
  | cons op rest ih =>
    have hrest : ∀ op ∈ rest, op.core < n := fun o ho =>
      hcores o (List.mem_cons_of_mem _ ho)
    cases op with
    | alloc core size =>
      have hcore : core < n := hcores _ (List.mem_cons_self _ _)
      unfold runTrackOps
      rw [ih _ hrest]
      rw [clientTotal_memAllocated n nallocxFn client core size st hidx hcore]
      rw [opsCharges_cons_alloc, opsCredits_cons_alloc]
      ring
    | dealloc core sallocSize =>
      have hcore : core < n := hcores _ (List.mem_cons_self _ _)
      unfold runTrackOps
      rw [ih _ hrest]
      rw [clientTotal_memDeallocated n client core sallocSize st hidx hcore]
      rw [opsCharges_cons_dealloc, opsCredits_cons_dealloc]
      ring

lemma scanFree_none_used (cs : Nat → Client) (l : List Nat)
    (h : scanFree cs l = none) : ∀ j ∈ l, (cs j).used = true := by
  induction l with
  | nil => intro j hj; cases hj
  | cons a rest ih =>
    intro j hj
    unfold scanFree at h
    by_cases ha : (cs a).used
    · rw [if_pos ha] at h
      rcases List.mem_cons.mp hj with rfl | hmem
      · exact ha
      · exact ih h j hmem
    · rw [if_neg ha] at h
      cases h

lemma scanFree_all_used (cs : Nat → Client) (l : List Nat)
    (h : ∀ j ∈ l, (cs j).used = true) : scanFree cs l = none := by
  induction l with
  | nil => rfl
  | cons a rest ih =>
    unfold scanFree
    rw [if_pos (h a (List.mem_cons_self _ _))]
    exact ih fun j hj => h j (List.mem_cons_of_mem _ hj)

lemma scanFree_map_succ (cs : Nat → Client) (l : List Nat) :
    scanFree cs (l.map Nat.succ)
      = Option.map Nat.succ (scanFree (fun j => cs (j + 1)) l) := by
  induction l with
  | nil => rfl
  | cons a rest ih =>
    unfold scanFree
    simp only [List.map_cons]
    show (if (cs (a + 1)).used then scanFree cs (rest.map Nat.succ)
      else some (Nat.succ a)) = _
    by_cases ha : (cs (a + 1)).used
    · rw [if_pos ha, if_pos ha, ih]
    · rw [if_neg ha, if_neg ha]
      rfl

lemma scanFree_range_spec (n : Nat) (cs : Nat → Client) (i : Nat)
    (h : scanFree cs (List.range n) = some i) :
    i < n ∧ (cs i).used = false ∧ ∀ j < i, (cs j).used = true := by
  induction n generalizing cs i with
  | zero => cases h
  | succ n ih =>
    rw [List.range_succ_eq_map] at h
    unfold scanFree at h
    by_cases h0 : (cs 0).used
    · rw [if_pos h0, scanFree_map_succ] at h
      rcases Option.map_eq_some'.mp h with ⟨i', hi', rfl⟩
      obtain ⟨hlt, hfree, hbefore⟩ := ih (fun j => cs (j + 1)) i' hi'
      refine ⟨Nat.succ_lt_succ hlt, hfree, ?_⟩
      intro j hj
      cases j with
      | zero => exact h0
      | succ k => exact hbefore k (Nat.lt_of_succ_lt_succ hj)
    · rw [if_neg h0] at h
      cases h
      exact ⟨Nat.succ_pos n, Bool.eq_false_iff.mpr h0, fun j hj => by omega⟩

lemma scanFree_range_first (n : Nat) (cs : Nat → Client) (i : Nat)
    (hi : i < n) (hfree : (cs i).used = false)
    (hbefore : ∀ j < i, (cs j).used = true) :
    scanFree cs (List.range n) = some i := by
  cases h : scanFree cs (List.range n) with
  | none =>
    have := scanFree_none_used cs _ h i (List.mem_range.mpr hi)
    rw [hfree] at this
    cases this
  | some k =>
    obtain ⟨hk, hkfree, hkbefore⟩ := scanFree_range_spec n cs k h
    have : k = i := by
      rcases Nat.lt_trichotomy k i with hlt | heq | hgt
      · have := hbefore k hlt
        rw [hkfree] at this
        cases this
      · exact heq
      · have := hkbefore i hgt
        rw [hfree] at this
        cases this
    rw [this]

lemma memAllocated_shard_bound (nallocxFn : Nat → Nat)
    (client : ArenaMallocClient) (core size : Nat) (st : TrackerState)
    (hthr : 0 ≤ client.estimateUpdateThreshold)
    (hinv : ∀ d, |st.coreAllocated client.index d|
      ≤ client.estimateUpdateThreshold) :
    ∀ d, |(JEArenaCoreLocalTracker.memAllocated nallocxFn client core size
        st).coreAllocated client.index d|
      ≤ client.estimateUpdateThreshold := by
  intro d
  unfold JEArenaCoreLocalTracker.memAllocated
  by_cases hidx : client.index ≠ NoClientIndex
  · rw [if_pos hidx]
    unfold maybeUpdateEstimatedTotalMemUsed
    dsimp only
    split
    · simp only [upd2, eq_self_iff_true, true_and]
      by_cases hd : d = core
      · simp [hd, hthr]
      · simp only [hd, and_false, if_false, if_neg hd]
        exact hinv d
    · rename_i hle
      simp only [upd2, eq_self_iff_true, true_and]
      by_cases hd : d = core
      · simp only [hd, if_true, eq_self_iff_true]
        omega
      · simp only [if_neg hd]
        exact hinv d
  · rw [if_neg hidx]
    exact hinv d

lemma memDeallocated_shard_bound (client : ArenaMallocClient)
    (core sallocSize : Nat) (st : TrackerState)
    (hthr : 0 ≤ client.estimateUpdateThreshold)
    (hinv : ∀ d, |st.coreAllocated client.index d|
      ≤ client.estimateUpdateThreshold) :
    ∀ d, |(JEArenaCoreLocalTracker.memDeallocated client core sallocSize
        st).coreAllocated client.index d|
      ≤ client.estimateUpdateThreshold := by
  intro d
  unfold JEArenaCoreLocalTracker.memDeallocated
  by_cases hidx : client.index ≠ NoClientIndex
  · rw [if_pos hidx]
    unfold maybeUpdateEstimatedTotalMemUsed
    dsimp only
    split
    · simp only [upd2, eq_self_iff_true, true_and]
      by_cases hd : d = core
      · simp [hd, hthr]
      · simp only [hd, and_false, if_false, if_neg hd]
        exact hinv d
    · rename_i hle
      simp only [upd2, eq_self_iff_true, true_and]
      by_cases hd : d = core
      · simp only [hd, if_true, eq_self_iff_true]
        omega
      · simp only [if_neg hd]
        exact hinv d
  · rw [if_neg hidx]
    exact hinv d

lemma runTrackOps_shard_bound (nallocxFn : Nat → Nat)
    (client : ArenaMallocClient) (ops : List TrackOp) (st : TrackerState)
    (hthr : 0 ≤ client.estimateUpdateThreshold)
    (hinv : ∀ d, |st.coreAllocated client.index d|
      ≤ client.estimateUpdateThreshold) :
    ∀ d, |(runTrackOps nallocxFn client ops st).coreAllocated
        client.index d| ≤ client.estimateUpdateThreshold := by
  induction ops generalizing st with
  | nil => exact hinv
  | cons op rest ih =>
    cases op with
    | alloc core size =>
      exact ih _ (memAllocated_shard_bound nallocxFn client core size st
        hthr hinv)
    | dealloc core sallocSize =>
      exact ih _ (memDeallocated_shard_bound client core sallocSize st
        hthr hinv)

lemma malloc_eq (nallocxFn : Nat → Nat) (core size : Nat) (st : JEState)
    (hs : size ≠ 0) :
    JEArenaMalloc.malloc nallocxFn core size st
      = (st.nextPtr + 1,
        { st with
          tracker := JEArenaCoreLocalTracker.memAllocated nallocxFn
            st.currentClient core size st.tracker
          heap := upd1 st.heap (st.nextPtr + 1) (some (nallocxFn size))
          nextPtr := st.nextPtr + 1 }) := by
  unfold JEArenaMalloc.malloc mallocx
  rw [if_neg hs]

lemma free_eq (core ptr : Nat) (st : JEState) (hp : ptr ≠ 0) :
    JEArenaMalloc.free core ptr st
      = { st with
          tracker := JEArenaCoreLocalTracker.memDeallocated
            st.currentClient core (sallocx st ptr) st.tracker
          heap := upd1 st.heap ptr none } := by
  unfold JEArenaMalloc.free dallocx
  rw [if_pos hp]

lemma sized_free_eq (core ptr size : Nat) (st : JEState) (hp : ptr ≠ 0) :
    JEArenaMalloc.sized_free core ptr size st
      = { st with
          tracker := JEArenaCoreLocalTracker.memDeallocated
            st.currentClient core (sallocx st ptr) st.tracker
          heap := upd1 st.heap ptr none } := by
  unfold JEArenaMalloc.sized_free dallocx
  rw [if_pos hp]

lemma calloc_eq (nallocxFn : Nat → Nat) (core nmemb size : Nat)
    (st : JEState) :
    JEArenaMalloc.calloc nallocxFn core nmemb size st
      = (st.nextPtr + 1,
        { st with
          tracker := JEArenaCoreLocalTracker.memAllocated nallocxFn
            st.currentClient core size st.tracker
          heap := upd1 st.heap (st.nextPtr + 1)
            (some (nallocxFn (nmemb * size)))
          nextPtr := st.nextPtr + 1 }) := rfl

lemma realloc_eq (nallocxFn : Nat → Nat) (core ptr size : Nat)
    (st : JEState) (hp : ptr ≠ 0) (hs : size ≠ 0) :
    JEArenaMalloc.realloc nallocxFn core ptr size st
      = (ptr,
        { st with
          tracker := JEArenaCoreLocalTracker.memAllocated nallocxFn
            st.currentClient core size
            (JEArenaCoreLocalTracker.memDeallocated st.currentClient core
              (sallocx st ptr) st.tracker)
          heap := upd1 st.heap ptr (some (nallocxFn size)) }) := by
  unfold JEArenaMalloc.realloc rallocx
  rw [if_neg hs, if_neg hp]

lemma facade_getPrecise_val (n : Nat) (h : ArenaMallocClient)
    (st : JEState) :
    (JEArenaMalloc.getPreciseAllocated n h st).1
      = (max 0 (clientTotal n h.index st.tracker)).toNat := by
  show (JEArenaCoreLocalTracker.getPreciseAllocated n h st.tracker).1 = _
  exact getPrecise_val n h st.tracker

lemma clientTotal_zero (n i : Nat) : clientTotal n i TrackerState.zero = 0 := by
  rw [clientTotal_def]
  simp [TrackerState.zero]

/-- C1: for every valid client handle, `getPreciseAllocated` drains every
shard of the client into the per-client aggregate `clientEstimatedMemory`
(after the call the aggregate holds the old aggregate plus the sum of all
shards and every shard is 0) and returns `max(0, estimated[index])` — a
`size_t`, hence never negative; moreover after any single-threaded run of
charges and credits from the zeroed state the value returned is the clamp of
(sum of charges − sum of credits), which equals that difference exactly
whenever credits do not exceed charges. -/
theorem C1_getPreciseAllocated_drains_and_clamps (nallocxFn : Nat → Nat)
    (n : Nat) (client : ArenaMallocClient) (ops : List TrackOp)
    (st : TrackerState) (hidx : client.index ≠ NoClientIndex)
    (hcores : ∀ op ∈ ops, op.core < n) :
    ((JEArenaCoreLocalTracker.getPreciseAllocated n client
        st).2.clientEstimatedMemory client.index
      = st.clientEstimatedMemory client.index
        + ∑ c in Finset.range n, st.coreAllocated client.index c)
    ∧ (∀ c < n, (JEArenaCoreLocalTracker.getPreciseAllocated n client
        st).2.coreAllocated client.index c = 0)
    ∧ ((JEArenaCoreLocalTracker.getPreciseAllocated n client st).1
      = (max 0 (clientTotal n client.index st)).toNat)
    ∧ ((JEArenaCoreLocalTracker.getPreciseAllocated n client
        (runTrackOps nallocxFn client ops TrackerState.zero)).1
      = (max 0 (opsCharges nallocxFn ops - opsCredits ops)).toNat)
    ∧ (opsCredits ops ≤ opsCharges nallocxFn ops →
      ((JEArenaCoreLocalTracker.getPreciseAllocated n client
        (runTrackOps nallocxFn client ops TrackerState.zero)).1 : Int)
      = opsCharges nallocxFn ops - opsCredits ops) := by
  have hrun : clientTotal n client.index
      (runTrackOps nallocxFn client ops TrackerState.zero)
      = opsCharges nallocxFn ops - opsCredits ops := by
    rw [clientTotal_runTrackOps n nallocxFn client ops TrackerState.zero
      hidx hcores, clientTotal_zero]
    ring
  refine ⟨?_, ?_, getPrecise_val n client st, ?_, ?_⟩
  · rw [getPrecise_est, clientTotal_def]
  · intro c hc
    exact getPrecise_shard n client st c hc
  · rw [getPrecise_val, hrun]
  · intro hle
    rw [getPrecise_val, hrun]
    have hnn : 0 ≤ opsCharges nallocxFn ops - opsCredits ops := by omega
    rw [max_eq_right hnn]
    exact Int.toNat_of_nonneg hnn

/-- Witness for C1 at a concrete input: two charges and one credit from two
cores, with the client on index 3 and drift threshold 100. -/
theorem C1_witness :
    ((3 : Nat) ≠ NoClientIndex
      ∧ ∀ op ∈ [TrackOp.alloc 0 5, TrackOp.alloc 1 7, TrackOp.dealloc 0 4],
          op.core < 2)
    ∧ ((JEArenaCoreLocalTracker.getPreciseAllocated 2
        { index := 3, threadCache := false, arena := 1,
          estimateUpdateThreshold := 100 }
        (runTrackOps (fun s => s)
          { index := 3, threadCache := false, arena := 1,
            estimateUpdateThreshold := 100 }
          [TrackOp.alloc 0 5, TrackOp.alloc 1 7, TrackOp.dealloc 0 4]
          TrackerState.zero)).1 : Int)
      = opsCharges (fun s => s)
          [TrackOp.alloc 0 5, TrackOp.alloc 1 7, TrackOp.dealloc 0 4]
        - opsCredits
          [TrackOp.alloc 0 5, TrackOp.alloc 1 7, TrackOp.dealloc 0 4] :=
  ⟨⟨by decide, by decide⟩,
    (C1_getPreciseAllocated_drains_and_clamps (fun s => s) 2
      { index := 3, threadCache := false, arena := 1,
        estimateUpdateThreshold := 100 }
      [TrackOp.alloc 0 5, TrackOp.alloc 1 7, TrackOp.dealloc 0 4]
      TrackerState.zero (by decide) (by decide)).2.2.2.2 (by decide)⟩

/-- C2 (code evaluated at the failing input): with the identity size-class
function and client index 3 switched in, `calloc(2, 100)` charges the shard
only `nallocx(100, 0) = 100` bytes, while the block it returns has effective
size `nallocx(2*100, 0) = 200` — the charge is not the effective size of the
full `m*n`-byte request, so the claim fails on the code as written
(`memAllocated(c.index, size)` instead of `nmemb * size`). -/
theorem C2_calloc_charge_eval :
    ((JEArenaMalloc.calloc (fun s => s) 0 2 100
        (JEArenaMalloc.switchToClient
          { index := 3, threadCache := false, arena := 1,
            estimateUpdateThreshold := 1000000 }
          JEState.initial)).2.tracker.coreAllocated 3 0 = 100)
    ∧ ((JEArenaMalloc.calloc (fun s => s) 0 2 100
        (JEArenaMalloc.switchToClient
          { index := 3, threadCache := false, arena := 1,
            estimateUpdateThreshold := 1000000 }
          JEState.initial)).2.heap
        (JEArenaMalloc.calloc (fun s => s) 0 2 100
          (JEArenaMalloc.switchToClient
            { index := 3, threadCache := false, arena := 1,
              estimateUpdateThreshold := 1000000 }
            JEState.initial)).1 = some 200)
    ∧ (100 : Int) ≠ 200 := by
  refine ⟨?_, ?_, by decide⟩ <;> rfl

lemma sallocx_def (st : JEState) (ptr : Nat) :
    sallocx st ptr = (st.heap ptr).getD 0 := rfl

/-- C3: for every valid handle and every `n ≥ 1`, from any accounting state,
`switchToClient(h); p = malloc(n); switchFromClient()` followed by
`switchToClient(h); free(p); switchFromClient()` brings
`getPreciseAllocated(h)` back to exactly its pre-malloc value, because the
charge recorded at malloc (`nallocx(n, 0)`) equals the credit recorded at
free (`sallocx(p, 0)`). -/
theorem C3_malloc_free_roundtrip (nallocxFn : Nat → Nat)
    (numCores core n : Nat) (h : ArenaMallocClient) (tc : Bool)
    (st : JEState) (hn : 1 ≤ n) (hidx : h.index < ArenaMallocMaxClients)
    (hcore : core < numCores) :
    (JEArenaMalloc.getPreciseAllocated numCores h
        (JEArenaMalloc.switchFromClient tc
          (JEArenaMalloc.free core
            (JEArenaMalloc.malloc nallocxFn core n
              (JEArenaMalloc.switchToClient h st)).1
            (JEArenaMalloc.switchToClient h
              (JEArenaMalloc.switchFromClient tc
                (JEArenaMalloc.malloc nallocxFn core n
                  (JEArenaMalloc.switchToClient h st)).2))))).1
      = (JEArenaMalloc.getPreciseAllocated numCores h st).1
    ∧ sallocx
        (JEArenaMalloc.switchToClient h
          (JEArenaMalloc.switchFromClient tc
            (JEArenaMalloc.malloc nallocxFn core n
              (JEArenaMalloc.switchToClient h st)).2))
        (JEArenaMalloc.malloc nallocxFn core n
          (JEArenaMalloc.switchToClient h st)).1
      = nallocxFn n := by
  have hidx' : h.index ≠ NoClientIndex := by
    unfold NoClientIndex ArenaMallocMaxClients
    unfold ArenaMallocMaxClients at hidx
    omega
  have hs : n ≠ 0 := by omega
  rw [malloc_eq nallocxFn core n (JEArenaMalloc.switchToClient h st) hs]
  rw [free_eq _ _ _ (Nat.succ_ne_zero _)]
  rw [facade_getPrecise_val, facade_getPrecise_val]
  simp only [JEArenaMalloc.switchToClient, JEArenaMalloc.switchFromClient,
    sallocx_def, upd1, eq_self_iff_true, if_true, Option.getD_some]
  refine ⟨?_, trivial⟩
  rw [clientTotal_memDeallocated numCores h core (nallocxFn n) _ hidx'
    hcore]
  rw [clientTotal_memAllocated numCores nallocxFn h core n st.tracker hidx'
    hcore]
  congr 1
  omega

/-- Witness for C3 at a concrete input: a 16-byte malloc/free round trip by
client index 3 on core 0 of 2, from the pristine state. -/
theorem C3_witness :
    ((1 : Nat) ≤ 16 ∧ (3 : Nat) < ArenaMallocMaxClients ∧ (0 : Nat) < 2)
    ∧ (JEArenaMalloc.getPreciseAllocated 2
        { index := 3, threadCache := false, arena := 1,
          estimateUpdateThreshold := 100 }
        (JEArenaMalloc.switchFromClient false
          (JEArenaMalloc.free 0
            (JEArenaMalloc.malloc (fun s => s) 0 16
              (JEArenaMalloc.switchToClient
                { index := 3, threadCache := false, arena := 1,
                  estimateUpdateThreshold := 100 }
                JEState.initial)).1
            (JEArenaMalloc.switchToClient
              { index := 3, threadCache := false, arena := 1,
                estimateUpdateThreshold := 100 }
              (JEArenaMalloc.switchFromClient false
                (JEArenaMalloc.malloc (fun s => s) 0 16
                  (JEArenaMalloc.switchToClient
                    { index := 3, threadCache := false, arena := 1,
                      estimateUpdateThreshold := 100 }
                    JEState.initial)).2))))).1
      = (JEArenaMalloc.getPreciseAllocated 2
          { index := 3, threadCache := false, arena := 1,
            estimateUpdateThreshold := 100 }
          JEState.initial).1 :=
  ⟨⟨by decide, by decide, by decide⟩,
    (C3_malloc_free_roundtrip (fun s => s) 2 0 16
      { index := 3, threadCache := false, arena := 1,
        estimateUpdateThreshold := 100 }
      false JEState.initial (by decide) (by decide) (by decide)).1⟩

lemma realloc_ptr_eq (nallocxFn : Nat → Nat) (core ptr size : Nat)
    (st : JEState) (hp : ptr ≠ 0) :
    JEArenaMalloc.realloc nallocxFn core ptr size st
      = (ptr,
        { st with
          tracker := JEArenaCoreLocalTracker.memAllocated nallocxFn
            st.currentClient core (if size = 0 then 8 else size)
            (JEArenaCoreLocalTracker.memDeallocated st.currentClient core
              (sallocx st ptr) st.tracker)
          heap := upd1 st.heap ptr
            (some (nallocxFn (if size = 0 then 8 else size))) }) := by
  unfold JEArenaMalloc.realloc rallocx
  rw [if_neg hp]

/-- C4: an allocation or deallocation performed while the calling thread's
current client index is `NoClientIndex` modifies no shard and no per-client
aggregate (the tracker state — and hence every client's precise and
estimated figure — is unchanged), while the underlying allocator call still
executes (a fresh block appears for `malloc`/`calloc`, the block is resized
for `realloc`, and the block disappears for `free`/`sized_free`). -/
theorem C4_noclient_gating (nallocxFn : Nat → Nat)
    (core size nmemb ptr fsz : Nat) (st : JEState)
    (hidx : st.currentClient.index = NoClientIndex) (hptr : ptr ≠ 0) :
    ((JEArenaMalloc.malloc nallocxFn core size st).2.tracker = st.tracker
      ∧ (JEArenaMalloc.malloc nallocxFn core size st).1 = st.nextPtr + 1
      ∧ (JEArenaMalloc.malloc nallocxFn core size st).2.heap
          (st.nextPtr + 1)
        = some (nallocxFn (if size = 0 then 8 else size)))
    ∧ ((JEArenaMalloc.calloc nallocxFn core nmemb size st).2.tracker
        = st.tracker
      ∧ (JEArenaMalloc.calloc nallocxFn core nmemb size st).2.heap
          (st.nextPtr + 1)
        = some (nallocxFn (nmemb * size)))
    ∧ ((JEArenaMalloc.realloc nallocxFn core ptr size st).2.tracker
        = st.tracker)
    ∧ ((JEArenaMalloc.free core ptr st).tracker = st.tracker
      ∧ (JEArenaMalloc.free core ptr st).heap ptr = none)
    ∧ ((JEArenaMalloc.sized_free core ptr fsz st).tracker = st.tracker
      ∧ (JEArenaMalloc.sized_free core ptr fsz st).heap ptr = none)
    ∧ (∀ n h', (JEArenaMalloc.getPreciseAllocated n h'
          (JEArenaMalloc.free core ptr st)).1
        = (JEArenaMalloc.getPreciseAllocated n h' st).1)
    ∧ (∀ h', JEArenaMalloc.getEstimatedAllocated h'
          (JEArenaMalloc.free core ptr st)
        = JEArenaMalloc.getEstimatedAllocated h' st) := by
  have hfree : (JEArenaMalloc.free core ptr st).tracker = st.tracker := by
    rw [free_eq core ptr st hptr]
    exact memDeallocated_noclient st.currentClient core (sallocx st ptr)
      st.tracker hidx
  refine ⟨⟨?_, rfl, ?_⟩, ⟨?_, ?_⟩, ?_, ⟨hfree, ?_⟩, ⟨?_, ?_⟩, ?_, ?_⟩
  · show JEArenaCoreLocalTracker.memAllocated nallocxFn st.currentClient
      core (if size = 0 then 8 else size) st.tracker = st.tracker
    exact memAllocated_noclient _ _ _ _ _ hidx
  · show upd1 st.heap (st.nextPtr + 1)
      (some (nallocxFn (if size = 0 then 8 else size))) (st.nextPtr + 1) = _
    simp [upd1]
  · show JEArenaCoreLocalTracker.memAllocated nallocxFn st.currentClient
      core size st.tracker = st.tracker
    exact memAllocated_noclient _ _ _ _ _ hidx
  · show upd1 st.heap (st.nextPtr + 1) (some (nallocxFn (nmemb * size)))
      (st.nextPtr + 1) = _
    simp [upd1]
  · rw [realloc_ptr_eq nallocxFn core ptr size st hptr]
    show JEArenaCoreLocalTracker.memAllocated nallocxFn st.currentClient
      core (if size = 0 then 8 else size)
      (JEArenaCoreLocalTracker.memDeallocated st.currentClient core
        (sallocx st ptr) st.tracker) = st.tracker
    rw [memDeallocated_noclient _ _ _ _ hidx]
    exact memAllocated_noclient _ _ _ _ _ hidx
  · rw [free_eq core ptr st hptr]
    show upd1 st.heap ptr none ptr = none
    simp [upd1]
  · rw [sized_free_eq core ptr fsz st hptr]
    exact memDeallocated_noclient st.currentClient core (sallocx st ptr)
      st.tracker hidx
  · rw [sized_free_eq core ptr fsz st hptr]
    show upd1 st.heap ptr none ptr = none
    simp [upd1]
  · intro n h'
    rw [facade_getPrecise_val, facade_getPrecise_val, hfree]
  · intro h'
    show (max 0 ((JEArenaMalloc.free core ptr
      st).tracker.clientEstimatedMemory h'.index)).toNat = _
    rw [hfree]
    rfl

/-- Witness for C4 at a concrete input: operations from the pristine state
(no client switched in), freeing a live 32-byte block at pointer 1. -/
theorem C4_witness :
    ((JEState.initial.currentClient.index = NoClientIndex
        → (JEArenaMalloc.malloc (fun s => s) 0 32
            JEState.initial).2.tracker = JEState.initial.tracker)
      ∧ JEState.initial.currentClient.index = NoClientIndex
      ∧ (1 : Nat) ≠ 0)
    ∧ ((JEArenaMalloc.malloc (fun s => s) 0 32
        (JEArenaMalloc.malloc (fun s => s) 0 32
          JEState.initial).2).2.tracker
      = (JEArenaMalloc.malloc (fun s => s) 0 32
          JEState.initial).2.tracker
      ∧ (JEArenaMalloc.free 0 1
          (JEArenaMalloc.malloc (fun s => s) 0 32
            JEState.initial).2).tracker
        = (JEArenaMalloc.malloc (fun s => s) 0 32
            JEState.initial).2.tracker
      ∧ (JEArenaMalloc.free 0 1
          (JEArenaMalloc.malloc (fun s => s) 0 32
            JEState.initial).2).heap 1 = none) :=
  ⟨⟨fun _ => ((C4_noclient_gating (fun s => s) 0 32 0 1 0 JEState.initial
      rfl (by decide)).1).1, rfl, by decide⟩,
    ((C4_noclient_gating (fun s => s) 0 32 0 1 0
      (JEArenaMalloc.malloc (fun s => s) 0 32 JEState.initial).2
      rfl (by decide)).1).1,
    (((C4_noclient_gating (fun s => s) 0 32 0 1 0
      (JEArenaMalloc.malloc (fun s => s) 0 32 JEState.initial).2
      rfl (by decide)).2).2).2.2.1.1,
    (((C4_noclient_gating (fun s => s) 0 32 0 1 0
      (JEArenaMalloc.malloc (fun s => s) 0 32 JEState.initial).2
      rfl (by decide)).2).2).2.2.1.2⟩

/-- C5: after the `fetch_add`/`fetch_sub` of `memAllocated` or
`memDeallocated`, if the shard's new absolute value exceeds the client's
drift threshold the shard is exchanged to 0 and the removed amount is added
to the aggregate; consequently, in any single-threaded execution from the
zeroed state every shard of the client has absolute value at most the
client's drift threshold once each operation completes. -/
theorem C5_drift_threshold_bound (nallocxFn : Nat → Nat)
    (client : ArenaMallocClient) (core size sallocSize : Nat)
    (st : TrackerState) (ops : List TrackOp)
    (hidx : client.index ≠ NoClientIndex)
    (hthr : 0 ≤ client.estimateUpdateThreshold) :
    (client.estimateUpdateThreshold
        < |st.coreAllocated client.index core + (nallocxFn size : Int)| →
      (JEArenaCoreLocalTracker.memAllocated nallocxFn client core size
          st).coreAllocated client.index core = 0
      ∧ (JEArenaCoreLocalTracker.memAllocated nallocxFn client core size
          st).clientEstimatedMemory client.index
        = st.clientEstimatedMemory client.index
          + (st.coreAllocated client.index core + (nallocxFn size : Int)))
    ∧ (client.estimateUpdateThreshold
        < |st.coreAllocated client.index core - (sallocSize : Int)| →
      (JEArenaCoreLocalTracker.memDeallocated client core sallocSize
          st).coreAllocated client.index core = 0
      ∧ (JEArenaCoreLocalTracker.memDeallocated client core sallocSize
          st).clientEstimatedMemory client.index
        = st.clientEstimatedMemory client.index
          + (st.coreAllocated client.index core - (sallocSize : Int)))
    ∧ (∀ d, |(runTrackOps nallocxFn client ops
          TrackerState.zero).coreAllocated client.index d|
        ≤ client.estimateUpdateThreshold) := by
  refine ⟨?_, ?_, ?_⟩
  · intro hgt
    unfold JEArenaCoreLocalTracker.memAllocated
    rw [if_pos hidx]
    unfold maybeUpdateEstimatedTotalMemUsed
    dsimp only
    rw [if_pos hgt]
    constructor
    · simp [upd2]
    · simp [upd1, upd2]
  · intro hgt
    unfold JEArenaCoreLocalTracker.memDeallocated
    rw [if_pos hidx]
    unfold maybeUpdateEstimatedTotalMemUsed
    dsimp only
    rw [if_pos hgt]
    constructor
    · simp [upd2]
    · simp [upd1, upd2]
  · exact runTrackOps_shard_bound nallocxFn client ops TrackerState.zero
      hthr (fun d => by simp [TrackerState.zero, hthr])

/-- Witness for C5 at a concrete input: client index 3 with threshold 100;
a 70-byte charge then a 60-byte charge on core 0 makes the shard exceed the
threshold (130 > 100) and fold into the aggregate, and after any of the
listed operations the shard stays within the threshold. -/
theorem C5_witness :
    ((3 : Nat) ≠ NoClientIndex ∧ (0 : Int) ≤ 100
      ∧ (100 : Int)
          < |(JEArenaCoreLocalTracker.memAllocated (fun s => s)
                { index := 3, threadCache := false, arena := 1,
                  estimateUpdateThreshold := 100 }
                0 70 TrackerState.zero).coreAllocated 3 0 + (60 : Int)|)
    ∧ ((JEArenaCoreLocalTracker.memAllocated (fun s => s)
          { index := 3, threadCache := false, arena := 1,
            estimateUpdateThreshold := 100 }
          0 60
          (JEArenaCoreLocalTracker.memAllocated (fun s => s)
            { index := 3, threadCache := false, arena := 1,
              estimateUpdateThreshold := 100 }
            0 70 TrackerState.zero)).coreAllocated 3 0 = 0
      ∧ (JEArenaCoreLocalTracker.memAllocated (fun s => s)
          { index := 3, threadCache := false, arena := 1,
            estimateUpdateThreshold := 100 }
          0 60
          (JEArenaCoreLocalTracker.memAllocated (fun s => s)
            { index := 3, threadCache := false, arena := 1,
              estimateUpdateThreshold := 100 }
            0 70 TrackerState.zero)).clientEstimatedMemory 3
        = (JEArenaCoreLocalTracker.memAllocated (fun s => s)
            { index := 3, threadCache := false, arena := 1,
              estimateUpdateThreshold := 100 }
            0 70 TrackerState.zero).clientEstimatedMemory 3 + (70 + 60))
    ∧ (∀ d, |(runTrackOps (fun s => s)
          { index := 3, threadCache := false, arena := 1,
            estimateUpdateThreshold := 100 }
          [TrackOp.alloc 0 70, TrackOp.alloc 0 60, TrackOp.dealloc 0 90]
          TrackerState.zero).coreAllocated 3 d| ≤ 100) := by
  have hbase := C5_drift_threshold_bound (fun s => s)
    { index := 3, threadCache := false, arena := 1,
      estimateUpdateThreshold := 100 }
    0 60 90
    (JEArenaCoreLocalTracker.memAllocated (fun s => s)
      { index := 3, threadCache := false, arena := 1,
        estimateUpdateThreshold := 100 }
      0 70 TrackerState.zero)
    [TrackOp.alloc 0 70, TrackOp.alloc 0 60, TrackOp.dealloc 0 90]
    (by decide) (by decide)
  refine ⟨⟨by decide, by decide, by decide⟩, ?_, hbase.2.2⟩
  have h1 := hbase.1 (by decide)
  refine ⟨h1.1, ?_⟩
  rw [h1.2]
  decide

/-- C6: `registerClient` scans the slots in index order under the lock and
takes the first slot with `used == false`: it creates a new arena only when
that slot's arena is 0 (otherwise it reuses the retained arena), marks the
slot used, and returns a handle whose index is that slot and whose arena is
nonzero; when every one of the `ArenaMallocMaxClients = 100` slots is in
use it fails with `exhaustedClients` and no slot is modified. -/
theorem C6_registerClient_spec (nCores : Nat) (tc tcg : Bool)
    (st : JEState) (hA : 0 < st.nextArena) :
    ((∀ i, i < ArenaMallocMaxClients → (st.clients i).used = true) →
      JEArenaMalloc.registerClient nCores tc tcg st
        = (.error .exhaustedClients, st))
    ∧ (∀ i, i < ArenaMallocMaxClients → (st.clients i).used = false →
        (∀ j, j < i → (st.clients j).used = true) →
        ∃ h st',
          JEArenaMalloc.registerClient nCores tc tcg st = (.ok h, st')
          ∧ h.index = i
          ∧ h.arena ≠ 0
          ∧ h.threadCache = (tc && tcg)
          ∧ (st'.clients i).used = true
          ∧ (st'.clients i).arena = h.arena
          ∧ ((st.clients i).arena ≠ 0 →
              h.arena = (st.clients i).arena
              ∧ st'.nextArena = st.nextArena)
          ∧ ((st.clients i).arena = 0 →
              h.arena = st.nextArena
              ∧ st'.nextArena = st.nextArena + 1)
          ∧ (∀ j, j ≠ i → st'.clients j = st.clients j)) := by
  constructor
  · intro hall
    unfold JEArenaMalloc.registerClient
    rw [scanFree_all_used st.clients _
      (fun j hj => hall j (List.mem_range.mp hj))]
  · intro i hi hfree hbefore
    have hscan := scanFree_range_first ArenaMallocMaxClients st.clients i
      hi hfree hbefore
    unfold JEArenaMalloc.registerClient
    rw [hscan]
    dsimp only
    by_cases ha : (st.clients i).arena = 0
    · rw [if_pos ha]
      unfold makeArena
      dsimp only
      rw [if_neg (by omega : ¬st.nextArena = 0)]
      refine ⟨⟨i, tc && tcg, st.nextArena,
          defaultEstimateUpdateThreshold⟩,
        ⟨upd1 st.clients i ⟨st.nextArena, true⟩, st.nextArena + 1,
          st.currentClient,
          JEArenaCoreLocalTracker.clientRegistered nCores
            ⟨i, tc && tcg, st.nextArena, defaultEstimateUpdateThreshold⟩
            st.tracker,
          st.heap, st.nextPtr⟩,
        rfl, rfl, by dsimp only; omega, rfl, ?_, ?_, ?_, ?_, ?_⟩
      · simp [upd1]
      · simp [upd1]
      · intro hne
        exact absurd ha hne
      · intro _
        exact ⟨rfl, rfl⟩
      · intro j hj
        simp [upd1, hj]
    · rw [if_neg ha]
      dsimp only
      rw [if_neg ha]
      refine ⟨⟨i, tc && tcg, (st.clients i).arena,
          defaultEstimateUpdateThreshold⟩,
        ⟨upd1 st.clients i ⟨(st.clients i).arena, true⟩, st.nextArena,
          st.currentClient,
          JEArenaCoreLocalTracker.clientRegistered nCores
            ⟨i, tc && tcg, (st.clients i).arena,
              defaultEstimateUpdateThreshold⟩
            st.tracker,
          st.heap, st.nextPtr⟩,
        rfl, rfl, ha, rfl, ?_, ?_, ?_, ?_, ?_⟩
      · simp [upd1]
      · simp [upd1]
      · intro _
        exact ⟨rfl, rfl⟩
      · intro h0
        exact absurd h0 ha
      · intro j hj
        simp [upd1, hj]

/-- Witness for C6 at a concrete input: registering against the pristine
registry takes slot 0 (creating arena 1), and registering against a
registry whose every slot is in use fails with `exhaustedClients`. -/
theorem C6_witness :
    ((0 : Nat) < JEState.initial.nextArena
      ∧ (0 : Nat) < ArenaMallocMaxClients
      ∧ (JEState.initial.clients 0).used = false)
    ∧ (∃ h st',
        JEArenaMalloc.registerClient 2 true true JEState.initial
          = (.ok h, st')
        ∧ h.index = 0 ∧ h.arena ≠ 0)
    ∧ JEArenaMalloc.registerClient 2 true true
        { JEState.initial with
          clients := fun _ => { arena := 1, used := true } }
      = (.error .exhaustedClients,
        { JEState.initial with
          clients := fun _ => { arena := 1, used := true } }) := by
  refine ⟨⟨by decide, by decide, rfl⟩, ?_, ?_⟩
  · obtain ⟨h, st', heq, hidx, hnz, -⟩ :=
      (C6_registerClient_spec 2 true true JEState.initial
        (by decide)).2 0 (by decide) rfl (fun j hj => by omega)
    exact ⟨h, st', heq, hidx, hnz⟩
  · exact (C6_registerClient_spec 2 true true
      { JEState.initial with
        clients := fun _ => { arena := 1, used := true } }
      (by decide)).1 (fun i _ => rfl)

/-- C7: `unregisterClient` on a handle whose slot is in use clears the
slot's `used` flag and leaves the slot's arena unchanged (retained for
reuse), touching no other slot; on a handle whose slot is not in use it
fails with `invalidHandle` and changes nothing. -/
theorem C7_unregisterClient_spec (client : ArenaMallocClient)
    (st : JEState) :
    ((st.clients client.index).used = true →
      (JEArenaMalloc.unregisterClient client st).1 = .ok ()
      ∧ ((JEArenaMalloc.unregisterClient client st).2.clients
          client.index).used = false
      ∧ ((JEArenaMalloc.unregisterClient client st).2.clients
          client.index).arena = (st.clients client.index).arena
      ∧ (∀ j, j ≠ client.index →
          (JEArenaMalloc.unregisterClient client st).2.clients j
            = st.clients j))
    ∧ ((st.clients client.index).used = false →
      JEArenaMalloc.unregisterClient client st
        = (.error .invalidHandle, st)) := by
  constructor
  · intro hused
    have heq : JEArenaMalloc.unregisterClient client st
        = (.ok (),
          { st with
            clients := upd1 st.clients client.index
              ⟨(st.clients client.index).arena, false⟩ }) := by
      simp [JEArenaMalloc.unregisterClient, hused]
    rw [heq]
    refine ⟨rfl, ?_, ?_, ?_⟩
    · simp [upd1]
    · simp [upd1]
    · intro j hj
      simp [upd1, hj]
  · intro hunused
    simp [JEArenaMalloc.unregisterClient, hunused]

/-- Witness for C7 at a concrete input: unregistering index 5 of a registry
where only slot 5 (arena 7) is in use frees the slot but keeps arena 7;
unregistering it again fails with `invalidHandle`. -/
theorem C7_witness :
    (({ JEState.initial with
        clients := upd1 JEState.initial.clients 5
          { arena := 7, used := true } }.clients 5).used = true
      ∧ ((JEArenaMalloc.unregisterClient
          { index := 5, threadCache := false, arena := 7,
            estimateUpdateThreshold := 100 }
          { JEState.initial with
            clients := upd1 JEState.initial.clients 5
              { arena := 7, used := true } }).2.clients 5).used = false
      ∧ ((JEArenaMalloc.unregisterClient
          { index := 5, threadCache := false, arena := 7,
            estimateUpdateThreshold := 100 }
          { JEState.initial with
            clients := upd1 JEState.initial.clients 5
              { arena := 7, used := true } }).2.clients 5).arena = 7)
    ∧ ((JEState.initial.clients 5).used = false
      ∧ JEArenaMalloc.unregisterClient
          { index := 5, threadCache := false, arena := 7,
            estimateUpdateThreshold := 100 }
          JEState.initial
        = (.error .invalidHandle, JEState.initial)) := by
  have h1 := (C7_unregisterClient_spec
    { index := 5, threadCache := false, arena := 7,
      estimateUpdateThreshold := 100 }
    { JEState.initial with
      clients := upd1 JEState.initial.clients 5
        { arena := 7, used := true } }).1 (by rfl)
  have h2 := (C7_unregisterClient_spec
    { index := 5, threadCache := false, arena := 7,
      estimateUpdateThreshold := 100 }
    JEState.initial).2 (by rfl)
  exact ⟨⟨by rfl, h1.2.1, h1.2.2.1⟩, ⟨by rfl, h2⟩⟩

/-- C8: the tracker's `clientRegistered` — run as part of every successful
`registerClient` — zeroes the aggregate `clientEstimatedMemory[index]` and
every shard for that index; hence after `unregisterClient(h)` followed by a
new `registerClient` returning a handle on the same index, the new handle's
`getPreciseAllocated` is 0 regardless of any residual counts charged to the
index. -/
theorem C8_register_resets_accounting (nCores : Nat) (tc tcg : Bool)
    (client h h' : ArenaMallocClient) (tr : TrackerState)
    (st st1 st2 : JEState) :
    ((JEArenaCoreLocalTracker.clientRegistered nCores client
        tr).clientEstimatedMemory client.index = 0
      ∧ ∀ c, c < nCores →
        (JEArenaCoreLocalTracker.clientRegistered nCores client
          tr).coreAllocated client.index c = 0)
    ∧ (JEArenaMalloc.unregisterClient h st = (.ok (), st1) →
      JEArenaMalloc.registerClient nCores tc tcg st1 = (.ok h', st2) →
      h'.index = h.index →
      (JEArenaMalloc.getPreciseAllocated nCores h' st2).1 = 0) := by
  refine ⟨⟨clientRegistered_est nCores client tr,
    fun c hc => clientRegistered_shard nCores client tr c hc⟩, ?_⟩
  intro _ hreg _
  have htr : st2.tracker
      = JEArenaCoreLocalTracker.clientRegistered nCores h' st1.tracker := by
    unfold JEArenaMalloc.registerClient at hreg
    cases hscan : scanFree st1.clients (List.range ArenaMallocMaxClients)
      with
    | none =>
      rw [hscan] at hreg
      simp at hreg
    | some i =>
      rw [hscan] at hreg
      dsimp only at hreg
      by_cases ha :
          (if (st1.clients i).arena = 0 then makeArena st1
            else ((st1.clients i).arena, st1)).1 = 0
      · rw [if_pos ha] at hreg
        simp at hreg
      · rw [if_neg ha] at hreg
        obtain ⟨hcl, hst⟩ := Prod.mk.injEq .. ▸ hreg
        injection hcl with hcl
        have htr2 : (if (st1.clients i).arena = 0 then makeArena st1
            else ((st1.clients i).arena, st1)).2.tracker
            = st1.tracker := by
          split <;> rfl
        rw [← hst, ← hcl]
        dsimp only
        rw [htr2]
  rw [facade_getPrecise_val, htr, clientTotal_clientRegistered]
  rfl

/-- Witness for C8 at a concrete input: slot 0 carries a residual of 12345
bytes; unregistering it and registering again (same index 0) yields a
handle whose precise figure is 0. -/
theorem C8_witness :
    ((JEArenaCoreLocalTracker.clientRegistered 2
        { index := 0, threadCache := false, arena := 1,
          estimateUpdateThreshold := 100 }
        (JEArenaCoreLocalTracker.memAllocated (fun s => s)
          { index := 0, threadCache := false, arena := 1,
            estimateUpdateThreshold := 100 }
          0 12345 TrackerState.zero)).clientEstimatedMemory 0 = 0)
    ∧ (∀ st1res : Except ArenaError Unit × JEState,
        st1res = JEArenaMalloc.unregisterClient
          { index := 0, threadCache := false, arena := 1,
            estimateUpdateThreshold := 100 }
          { JEState.initial with
            clients := upd1 JEState.initial.clients 0
              { arena := 1, used := true },
            tracker := JEArenaCoreLocalTracker.memAllocated (fun s => s)
              { index := 0, threadCache := false, arena := 1,
                estimateUpdateThreshold := 100 }
              0 12345 TrackerState.zero } →
        ∀ h' : ArenaMallocClient, ∀ st2 : JEState,
        JEArenaMalloc.registerClient 2 false false st1res.2
          = (.ok h', st2) →
        h'.index = 0 →
        (JEArenaMalloc.getPreciseAllocated 2 h' st2).1 = 0) := by
  constructor
  · exact (C8_register_resets_accounting 2 false false
      { index := 0, threadCache := false, arena := 1,
        estimateUpdateThreshold := 100 }
      { index := 0, threadCache := false, arena := 1,
        estimateUpdateThreshold := 100 }
      { index := 0, threadCache := false, arena := 1,
        estimateUpdateThreshold := 100 }
      (JEArenaCoreLocalTracker.memAllocated (fun s => s)
        { index := 0, threadCache := false, arena := 1,
          estimateUpdateThreshold := 100 }
        0 12345 TrackerState.zero)
      JEState.initial JEState.initial JEState.initial).1.1
  · intro st1res hst1 h' st2 hreg hidx
    refine (C8_register_resets_accounting 2 false false h'
      { index := 0, threadCache := false, arena := 1,
        estimateUpdateThreshold := 100 }
      h' TrackerState.zero
      { JEState.initial with
        clients := upd1 JEState.initial.clients 0
          { arena := 1, used := true },
        tracker := JEArenaCoreLocalTracker.memAllocated (fun s => s)
          { index := 0, threadCache := false, arena := 1,
            estimateUpdateThreshold := 100 }
          0 12345 TrackerState.zero }
      st1res.2 st2).2 ?_ hreg hidx
    rw [hst1]
    rfl

/-- C9: `malloc(0)` and `realloc(p, 0)` substitute request size 8 before
charging and before calling the allocator; in particular `realloc(p, 0)`
with non-null `p` performs a real reallocation of 8 bytes — it credits
`sallocx(p, 0)`, charges `nallocx(8, 0)`, calls `rallocx(p, 8, flags)`, and
the result is a live allocation (never a free of `p`). -/
theorem C9_zero_size_normalization (nallocxFn : Nat → Nat) (core ptr : Nat)
    (st : JEState) (hp : ptr ≠ 0) :
    JEArenaMalloc.malloc nallocxFn core 0 st
      = JEArenaMalloc.malloc nallocxFn core 8 st
    ∧ JEArenaMalloc.realloc nallocxFn core ptr 0 st
      = JEArenaMalloc.realloc nallocxFn core ptr 8 st
    ∧ (JEArenaMalloc.realloc nallocxFn core ptr 0 st).1 = ptr
    ∧ (JEArenaMalloc.realloc nallocxFn core ptr 0 st).2.heap ptr
      = some (nallocxFn 8)
    ∧ (JEArenaMalloc.realloc nallocxFn core ptr 0 st).2.tracker
      = JEArenaCoreLocalTracker.memAllocated nallocxFn st.currentClient
          core 8
          (JEArenaCoreLocalTracker.memDeallocated st.currentClient core
            (sallocx st ptr) st.tracker) := by
  have hre : JEArenaMalloc.realloc nallocxFn core ptr 0 st
      = (ptr,
        { st with
          tracker := JEArenaCoreLocalTracker.memAllocated nallocxFn
            st.currentClient core 8
            (JEArenaCoreLocalTracker.memDeallocated st.currentClient core
              (sallocx st ptr) st.tracker),
          heap := upd1 st.heap ptr (some (nallocxFn 8)) }) :=
    realloc_eq nallocxFn core ptr 8 st hp (by omega)
  refine ⟨rfl, rfl, ?_, ?_, ?_⟩
  · rw [hre]
  · rw [hre]
    show upd1 st.heap ptr (some (nallocxFn 8)) ptr = some (nallocxFn 8)
    simp [upd1]
  · rw [hre]

/-- Witness for C9 at a concrete input: `realloc(p, 0)` on a live 4-byte
block at pointer 1 (client index 3 switched in) keeps pointer 1 live with
effective size `nallocx(8, 0) = 8`. -/
theorem C9_witness :
    ((1 : Nat) ≠ 0)
    ∧ JEArenaMalloc.malloc (fun s => s) 0 0
        (JEArenaMalloc.switchToClient
          { index := 3, threadCache := false, arena := 1,
            estimateUpdateThreshold := 100 }
          JEState.initial)
      = JEArenaMalloc.malloc (fun s => s) 0 8
        (JEArenaMalloc.switchToClient
          { index := 3, threadCache := false, arena := 1,
            estimateUpdateThreshold := 100 }
          JEState.initial)
    ∧ (JEArenaMalloc.realloc (fun s => s) 0 1 0
        (JEArenaMalloc.malloc (fun s => s) 0 4
          (JEArenaMalloc.switchToClient
            { index := 3, threadCache := false, arena := 1,
              estimateUpdateThreshold := 100 }
            JEState.initial)).2).1 = 1
    ∧ (JEArenaMalloc.realloc (fun s => s) 0 1 0
        (JEArenaMalloc.malloc (fun s => s) 0 4
          (JEArenaMalloc.switchToClient
            { index := 3, threadCache := false, arena := 1,
              estimateUpdateThreshold := 100 }
            JEState.initial)).2).2.heap 1 = some 8 :=
  ⟨by decide,
    (C9_zero_size_normalization (fun s => s) 0 1
      (JEArenaMalloc.switchToClient
        { index := 3, threadCache := false, arena := 1,
          estimateUpdateThreshold := 100 }
        JEState.initial) (by decide)).1,
    (C9_zero_size_normalization (fun s => s) 0 1
      (JEArenaMalloc.malloc (fun s => s) 0 4
        (JEArenaMalloc.switchToClient
          { index := 3, threadCache := false, arena := 1,
            estimateUpdateThreshold := 100 }
          JEState.initial)).2 (by decide)).2.2.1,
    (C9_zero_size_normalization (fun s => s) 0 1
      (JEArenaMalloc.malloc (fun s => s) 0 4
        (JEArenaMalloc.switchToClient
          { index := 3, threadCache := false, arena := 1,
            estimateUpdateThreshold := 100 }
          JEState.initial)).2 (by decide)).2.2.2.1⟩

/-- C10: `unregisterClient` on an in-use handle does not touch the
accounting state: the tracker (aggregate and every shard) and the heap are
exactly what they were, so any residual byte count for the index persists
and remains readable via `getPreciseAllocated` / `getEstimatedAllocated`
until a later `registerClient` reuses the index and resets it. -/
theorem C10_unregister_accounting_frame (client : ArenaMallocClient)
    (st : JEState) (hused : (st.clients client.index).used = true) :
    (JEArenaMalloc.unregisterClient client st).1 = .ok ()
    ∧ (JEArenaMalloc.unregisterClient client st).2.tracker = st.tracker
    ∧ (JEArenaMalloc.unregisterClient client st).2.heap = st.heap
    ∧ (∀ h', JEArenaMalloc.getEstimatedAllocated h'
        (JEArenaMalloc.unregisterClient client st).2
        = JEArenaMalloc.getEstimatedAllocated h' st)
    ∧ (∀ n h', (JEArenaMalloc.getPreciseAllocated n h'
        (JEArenaMalloc.unregisterClient client st).2).1
        = (JEArenaMalloc.getPreciseAllocated n h' st).1) := by
  have heq : JEArenaMalloc.unregisterClient client st
      = (.ok (),
        { st with
          clients := upd1 st.clients client.index
            ⟨(st.clients client.index).arena, false⟩ }) := by
    simp [JEArenaMalloc.unregisterClient, hused]
  rw [heq]
  refine ⟨rfl, rfl, rfl, fun h' => rfl, fun n h' => ?_⟩
  rw [facade_getPrecise_val, facade_getPrecise_val]

/-- Witness for C10 at a concrete input: slot 5 in use with a residual
2048-byte charge; unregistering leaves the tracker state and both figures
unchanged. -/
theorem C10_witness :
    (({ JEState.initial with
        clients := upd1 JEState.initial.clients 5
          { arena := 7, used := true },
        tracker := JEArenaCoreLocalTracker.memAllocated (fun s => s)
          { index := 5, threadCache := false, arena := 7,
            estimateUpdateThreshold := 1000000 }
          0 2048 TrackerState.zero }.clients 5).used = true)
    ∧ (JEArenaMalloc.unregisterClient
        { index := 5, threadCache := false, arena := 7,
          estimateUpdateThreshold := 1000000 }
        { JEState.initial with
          clients := upd1 JEState.initial.clients 5
            { arena := 7, used := true },
          tracker := JEArenaCoreLocalTracker.memAllocated (fun s => s)
            { index := 5, threadCache := false, arena := 7,
              estimateUpdateThreshold := 1000000 }
            0 2048 TrackerState.zero }).2.tracker
      = JEArenaCoreLocalTracker.memAllocated (fun s => s)
          { index := 5, threadCache := false, arena := 7,
            estimateUpdateThreshold := 1000000 }
          0 2048 TrackerState.zero :=
  ⟨rfl,
    (C10_unregister_accounting_frame
      { index := 5, threadCache := false, arena := 7,
        estimateUpdateThreshold := 1000000 }
      { JEState.initial with
        clients := upd1 JEState.initial.clients 5
          { arena := 7, used := true },
        tracker := JEArenaCoreLocalTracker.memAllocated (fun s => s)
          { index := 5, threadCache := false, arena := 7,
            estimateUpdateThreshold := 1000000 }
          0 2048 TrackerState.zero }
      rfl).2.1⟩
